import Mathlib

/-
Verification of the reference/navigation prototypes of `apply-pjl-code`.

The repository contains two prototype `ArticleNavigator` implementations
(`src/chat-history/article-navigator.ts`, a cheerio-based navigator followed by a
DOM-based one), a path compiler (`walkReference` / `convertAstToNavigationPath`),
three sketches of `extractModificationsFromProject`, and a `modification` parser
combinator sketch (`src/unnamed/part_000`).

Documents handled by both navigators are flat sequences of `<p>` blocks (as in the
source's own example and the spec's scenarios).  A `<p>` element has no `<p>`
descendants in parsed HTML, so a paragraph scope exposes no child paragraphs; the
model below reflects that directly.
-/

/-- JS `String.prototype.trim`: strip whitespace from both ends.  Implemented
structurally over the character list so that it evaluates inside the kernel. -/
def strTrim (s : String) : String :=
  String.mk (((s.toList.dropWhile Char.isWhitespace).reverse.dropWhile Char.isWhitespace).reverse)

/-- JS `String.prototype.startsWith`, structurally over character lists. -/
def strStartsWith (s pre : String) : Bool :=
  pre.toList.isPrefixOf s.toList

/-- Concatenation of a list of strings. -/
def strJoin : List String → String
  | [] => ""
  | s :: rest => s ++ strJoin rest

instance {ε α : Type} [DecidableEq ε] [DecidableEq α] : DecidableEq (Except ε α) :=
  fun x y =>
    match x, y with
    | Except.ok a, Except.ok b =>
      if h : a = b then Decidable.isTrue (by rw [h]) else Decidable.isFalse (by simp [h])
    | Except.error a, Except.error b =>
      if h : a = b then Decidable.isTrue (by rw [h]) else Decidable.isFalse (by simp [h])
    | Except.ok _, Except.error _ => Decidable.isFalse (by simp)
    | Except.error _, Except.ok _ => Decidable.isFalse (by simp)

/-- A paragraph block of an article document: its plain text content. -/
structure Block where
  text : String
deriving DecidableEq

/-- A document is an ordered flat list of paragraph blocks. -/
abbrev Doc := List Block

/-- The current navigation scope: the whole document body, a single paragraph
(identified by its index into the document), or the empty selection produced by
cheerio's wrapping of `undefined` (an out-of-range array access). -/
inductive Scope where
  | body
  | para (i : Nat)
  | empty
deriving DecidableEq

/-- The child paragraphs visible from a scope (`scope.find('p')` /
`scope.querySelectorAll('p')`).  The body exposes every block; a single `<p>`
has no `<p>` descendants; the empty selection has none. -/
def scopeBlocks (doc : Doc) : Scope → List Block
  | Scope.body => doc
  | Scope.para _ => []
  | Scope.empty => []

/-- Text of the block at a document index (empty when out of range). -/
def textAt (doc : Doc) (i : Nat) : String :=
  match doc.get? i with
  | some b => b.text
  | none => ""

/-- Plain text of a scope (`scope.text()`): the body concatenates all block
texts (inter-block markup whitespace is abstracted away), a paragraph scope is
its own text, the empty selection has none. -/
def scopeText (doc : Doc) : Scope → String
  | Scope.body => strJoin (doc.map Block.text)
  | Scope.para i => textAt doc i
  | Scope.empty => ""

/-- Rendered content of a scope (`scope.html() || ''` at the end of
`navigatePath`); the empty selection renders as the empty string. -/
def scopeHtml (doc : Doc) : Scope → String
  | Scope.body => strJoin (doc.map Block.text)
  | Scope.para i => textAt doc i
  | Scope.empty => ""

/-- Index of the first element of a list satisfying `p`, mirroring the
`for (const p of paragraphs) { if ... return }` loops of both navigators. -/
def firstMatch {α : Type} (p : α → Bool) : List α → Option Nat
  | [] => none
  | a :: rest => if p a then some 0 else (firstMatch p rest).map (· + 1)

/- ### Navigator 1 (cheerio prototype, article-navigator.ts lines 16-324) -/

/-- Step kinds of the first navigator's `NavigationStep` interface. -/
inductive StepType1 where
  | texte
  | article
  | division
  | portion
deriving DecidableEq

/-- The first navigator's `NavigationStep`: a tag plus the optional fields
`cid`, `num`, `divisionType`, `portionType` and the DOM index. -/
structure NavigationStep where
  type : StepType1
  cid : Option String
  num : Option String
  divisionType : Option String
  portionType : Option String
  index : Option Int
deriving DecidableEq

/-- Printable form of `StepType1`. -/
def stepType1String : StepType1 → String
  | StepType1.texte => "texte"
  | StepType1.article => "article"
  | StepType1.division => "division"
  | StepType1.portion => "portion"

/-- Rendering of an optional string field, as in a JS template literal. -/
def optStr : Option String → String
  | none => "undefined"
  | some s => s

/-- Rendering of an optional integer field. -/
def optIntStr : Option Int → String
  | none => "undefined"
  | some i => toString i

/-- Deterministic rendering of a step, standing in for `JSON.stringify(step)`
in the first navigator's error messages.  The exact JSON layout is immaterial;
what matters is that the message is a function of the step alone and carries
its fields. -/
def stepToString1 (s : NavigationStep) : String :=
  "\x7btype:" ++ stepType1String s.type ++ ",num:" ++ optStr s.num ++
    ",divisionType:" ++ optStr s.divisionType ++ ",portionType:" ++ optStr s.portionType ++
    ",index:" ++ optIntStr s.index ++ "\x7d"

/-- The first navigator's `getDivisionPatterns`: the six accepted surface forms
derived from a division marker (article-navigator.ts lines 245-254). -/
def getDivisionPatterns1 (num : String) : List String :=
  [num ++ ".-", num ++ ". -", num ++ " -", num ++ ".", num ++ "°", num ++ ")"]

/-- Whether a block's trimmed text starts with one of the marker's accepted
surface forms (first navigator). -/
def divMatches1 (num : String) (b : Block) : Bool :=
  (getDivisionPatterns1 num).any (fun pat => strStartsWith (strTrim b.text) pat)

/-- The marker-based search of `findDivision` (first navigator): skipped when
`num` is absent or empty (JS truthiness of `if (num)`). -/
def byNumIdx (paragraphs : List Block) (num : Option String) : Option Nat :=
  match num with
  | some n => if n = "" then none else firstMatch (divMatches1 n) paragraphs
  | none => none

/-- The index fallback of the first navigator's `findDivision`: a nonnegative
index returns `this.$(paragraphs[index])`, which is the empty selection when the
index is out of range; otherwise the division-not-found error is thrown. -/
def divisionFallback (paragraphs : List Block) (step : NavigationStep) : Except String Scope :=
  match step.index with
  | some i =>
    if 0 ≤ i then
      match paragraphs.get? i.toNat with
      | some _ => Except.ok (Scope.para i.toNat)
      | none => Except.ok Scope.empty
    else Except.error ("Division not found: " ++ stepToString1 step)
  | none => Except.error ("Division not found: " ++ stepToString1 step)

/-- The first navigator's `findDivision` (article-navigator.ts lines 167-192):
search the scope's paragraphs for the first whose trimmed text starts with one
of the marker's patterns; fall back to DOM indexing; otherwise throw. -/
def findDivision1 (doc : Doc) (scope : Scope) (step : NavigationStep) : Except String Scope :=
  let paragraphs := scopeBlocks doc scope
  match byNumIdx paragraphs step.num with
  | some j => Except.ok (Scope.para j)
  | none => divisionFallback paragraphs step

/-- Sentence-terminal punctuation of `splitSentences` (the regex `[.!?]`). -/
def isTerminal (c : Char) : Bool :=
  c = '.' ∨ c = '!' ∨ c = '?'

/-- Whether the most recently accumulated character is a sentence terminal. -/
def headIsTerminal : List Char → Bool
  | [] => false
  | c :: _ => isTerminal c

/-- Character-level splitter mirroring `text.split(/[.!?]\s+/)`: a terminal
character immediately followed by whitespace ends the current segment (the
terminal is consumed), and the whole whitespace run is consumed greedily.
`acc` holds the current segment reversed; the flag is true while consuming the
whitespace run of a separator. -/
def splitSentencesAux : List Char → List Char → Bool → List (List Char)
  | [], acc, _ => [acc.reverse]
  | c :: rest, acc, true =>
    if c.isWhitespace then splitSentencesAux rest acc true
    else splitSentencesAux rest [c] false
  | c :: rest, acc, false =>
    if c.isWhitespace ∧ headIsTerminal acc then
      (acc.drop 1).reverse :: splitSentencesAux rest [] true
    else splitSentencesAux rest (c :: acc) false

/-- The first navigator's `splitSentences` (article-navigator.ts lines 259-264):
split on sentence-terminal punctuation followed by whitespace and drop segments
that are empty after trimming. -/
def splitSentences (text : String) : List String :=
  (((splitSentencesAux text.toList [] false).map (fun cs => String.mk cs)).filter
    (fun s => 0 < (strTrim s).length))

/-- The `alinéa` branch of the first navigator's `findPortion`: `none` when the
branch falls through (to the `phrase` check and then the throw). -/
def alineaBranch (doc : Doc) (scope : Scope) (step : NavigationStep) :
    Option (Except String Scope) :=
  if step.portionType = some "alinéa" then
    let paragraphs := scopeBlocks doc scope
    if step.num = some "dernier" ∨ step.index = some (-1) then
      some (match paragraphs.get? (paragraphs.length - 1) with
        | some _ => Except.ok (Scope.para (paragraphs.length - 1))
        | none => Except.ok Scope.empty)
    else
      match step.index with
      | some i =>
        if 0 ≤ i then
          some (match paragraphs.get? i.toNat with
            | some _ => Except.ok (Scope.para i.toNat)
            | none => Except.ok Scope.empty)
        else none
      | none => none
  else none

/-- The `phrase` branch of the first navigator's `findPortion` (lines 214-237):
the sentence ordinal is validated against `splitSentences`, but on success the
whole scope is returned (the source comments this as a placeholder for marking
just the sentence). -/
def phraseBranch (doc : Doc) (scope : Scope) (step : NavigationStep) : Except String Scope :=
  if step.portionType = some "phrase" then
    let sentences := splitSentences (scopeText doc scope)
    match step.index with
    | some i =>
      if 0 ≤ i then
        let sentenceIndex := if i = 0 then 0 else i.toNat - 1
        match sentences.get? sentenceIndex with
        | some _ => Except.ok scope
        | none => Except.error ("Sentence at index " ++ toString i ++ " not found")
      else Except.error ("Portion not found: " ++ stepToString1 step)
    | none => Except.error ("Portion not found: " ++ stepToString1 step)
  else Except.error ("Portion not found: " ++ stepToString1 step)

/-- The first navigator's `findPortion` (article-navigator.ts lines 197-240). -/
def findPortion1 (doc : Doc) (scope : Scope) (step : NavigationStep) : Except String Scope :=
  match alineaBranch doc scope step with
  | some r => r
  | none => phraseBranch doc scope step

/-- Step loop of the first navigator's `navigatePath` (lines 138-162): `texte`
and `article` steps leave the scope unchanged; `division` and `portion` steps
narrow it, and a thrown error aborts the walk. -/
def navigatePath1Go (doc : Doc) : List NavigationStep → Scope → Except String String
  | [], scope => Except.ok (scopeHtml doc scope)
  | step :: rest, scope =>
    match step.type with
    | StepType1.texte => navigatePath1Go doc rest scope
    | StepType1.article => navigatePath1Go doc rest scope
    | StepType1.division =>
      match findDivision1 doc scope step with
      | Except.ok s2 => navigatePath1Go doc rest s2
      | Except.error e => Except.error e
    | StepType1.portion =>
      match findPortion1 doc scope step with
      | Except.ok s2 => navigatePath1Go doc rest s2
      | Except.error e => Except.error e

/-- The first navigator's `navigatePath`: walk the steps starting from the whole
document body and render the final scope. -/
def navigatePath1 (doc : Doc) (path : List NavigationStep) : Except String String :=
  navigatePath1Go doc path Scope.body

/- ### Navigator 2 (DOM prototype, article-navigator.ts lines 521-648) -/

/-- Step kinds of the second navigator's `NavigationStep` interface. -/
inductive StepType2 where
  | article
  | division
  | portion
deriving DecidableEq

/-- The ordinal field of the second navigator's steps:
`'first' | 'last' | 'second' | number`. -/
inductive Ordinal2 where
  | first
  | second
  | last
  | num (n : Int)
deriving DecidableEq

/-- The second navigator's `NavigationStep`: tag, optional identifier, optional
ordinal and optional relative index. -/
structure NavigationStep2 where
  type : StepType2
  identifier : Option String
  ordinal : Option Ordinal2
  relative : Option Int
deriving DecidableEq

/-- Rendering of the identifier in the second navigator's error template
(an absent identifier prints as `undefined` in a JS template literal). -/
def identifierString : Option String → String
  | none => "undefined"
  | some s => s

/-- The second navigator's `getDivisionPatterns` (lines 621-633): an absent or
empty identifier (JS falsiness of `if (!identifier)`) yields no patterns;
otherwise five suffix forms are derived - without the parenthesis form of the
first navigator. -/
def getDivisionPatterns2 (identifier : Option String) : List String :=
  match identifier with
  | none => []
  | some id =>
    if id = "" then []
    else [id ++ ".-", id ++ ". -", id ++ " -", id ++ ".", id ++ "°"]

/-- Whether a block's trimmed text starts with one of the identifier's accepted
surface forms (second navigator). -/
def divMatches2 (identifier : Option String) (b : Block) : Bool :=
  (getDivisionPatterns2 identifier).any (fun pat => strStartsWith (strTrim b.text) pat)

/-- The second navigator's `findDivision` (lines 572-587): first paragraph of
the scope whose trimmed text starts with an accepted pattern; no index
fallback; no match throws an error naming the identifier. -/
def findDivision2 (doc : Doc) (scope : Scope) (step : NavigationStep2) : Except String Scope :=
  let paragraphs := scopeBlocks doc scope
  match firstMatch (divMatches2 step.identifier) paragraphs with
  | some j => Except.ok (Scope.para j)
  | none => Except.error ("Division " ++ identifierString step.identifier ++ " not found")

/-- Target-index computation of the second navigator's `findPortion`
(lines 596-611): `relative` wins, then the symbolic ordinals, then a numeric
ordinal converted from 1-based to 0-based; otherwise the ordinal is invalid. -/
def portionTargetIndex (len : Nat) (step : NavigationStep2) : Except String Int :=
  match step.relative with
  | some r => Except.ok r
  | none =>
    match step.ordinal with
    | some Ordinal2.last => Except.ok ((len : Int) - 1)
    | some Ordinal2.first => Except.ok 0
    | some Ordinal2.second => Except.ok 1
    | some (Ordinal2.num n) => Except.ok (n - 1)
    | none => Except.error "Invalid portion ordinal"

/-- Selection of `paragraphs[targetIndex]` (lines 613-618): a negative or
out-of-range index is `undefined` and throws. -/
def selectParagraph (paragraphs : List Block) (t : Int) : Except String Scope :=
  if 0 ≤ t then
    match paragraphs.get? t.toNat with
    | some _ => Except.ok (Scope.para t.toNat)
    | none => Except.error ("Portion at index " ++ toString t ++ " not found")
  else Except.error ("Portion at index " ++ toString t ++ " not found")

/-- The second navigator's `findPortion` (lines 592-619). -/
def findPortion2 (doc : Doc) (scope : Scope) (step : NavigationStep2) : Except String Scope :=
  let paragraphs := scopeBlocks doc scope
  match portionTargetIndex paragraphs.length step with
  | Except.error e => Except.error e
  | Except.ok t => selectParagraph paragraphs t

/-- The second navigator's `navigateStep` (lines 552-567): an `article` step
leaves the scope unchanged. -/
def navigateStep2 (doc : Doc) (scope : Scope) (step : NavigationStep2) : Except String Scope :=
  match step.type with
  | StepType2.division => findDivision2 doc scope step
  | StepType2.portion => findPortion2 doc scope step
  | StepType2.article => Except.ok scope

/-- The second navigator's `locate` (lines 542-550): fold the steps over the
initial body scope. -/
def locate2 (doc : Doc) : List NavigationStep2 → Scope → Except String Scope
  | [], scope => Except.ok scope
  | step :: rest, scope =>
    match navigateStep2 doc scope step with
    | Except.ok s2 => locate2 doc rest s2
    | Except.error e => Except.error e

/- ### Path compiler (walkReference, article-navigator.ts lines 443-512) -/

/-- Division tags dispatched to a `division` step by `walkReference`
(lines 463-472). -/
inductive DivisionType2 where
  | partie
  | livre
  | titre
  | sousTitre
  | chapitre
  | sectionDiv
  | sousSection
  | paragraphe
  | sousParagraphe
  | sousSousParagraphe
deriving DecidableEq

/-- Portion tags dispatched to a `portion` step by `walkReference`
(lines 481-483): `alinéa`, `phrase` and `item`. -/
inductive PortionType2 where
  | alinea
  | phrase
  | item
deriving DecidableEq

/-- Modelled from the spec: the reference AST produced by the external tisseuse
grammar (`text_parsers/ast.ts` is not in src/).  Variants follow spec section 3:
`Text`, `Article` (number, optional relative offset), `Division` (tag, marker,
optional relative), `Portion` (unit, ordinal word/number, optional relative),
`ParentChild`, `Enumeration` (ordered member list, first member explicit) and
bounded/counted `Interval`s (the source's `walkReference` reads the first member
as `ref.left || ref.first`). -/
inductive TextAstReference where
  | texte (cid : String)
  | article (num : String) (relative : Option Int)
  | division (dtype : DivisionType2) (num : Option String) (relative : Option Int)
  | portion (ptype : PortionType2) (num : Option String) (relative : Option Int)
  | parentChild (parent child : TextAstReference)
  | enumeration (first : TextAstReference) (rest : List TextAstReference)
  | boundedInterval (left right : TextAstReference)
  | countedInterval (first : TextAstReference) (count : Nat)

/-- The path compiler `walkReference` (article-navigator.ts lines 452-512):
atomic references append one step whose fields copy the AST node verbatim;
`parent-enfant` walks parent then child; enumerations and intervals walk only
their first member (the source comments "on prend juste la première référence"
and attaches nothing to the result); a `texte` node falls into the default
branch, which only logs and appends no step. -/
def walkReference : TextAstReference → List NavigationStep2
  | TextAstReference.texte _ => []
  | TextAstReference.article num rel => [⟨StepType2.article, some num, none, rel⟩]
  | TextAstReference.division _ num rel => [⟨StepType2.division, num, none, rel⟩]
  | TextAstReference.portion _ num rel => [⟨StepType2.portion, num, none, rel⟩]
  | TextAstReference.parentChild parent child => walkReference parent ++ walkReference child
  | TextAstReference.enumeration first _ => walkReference first
  | TextAstReference.boundedInterval left _ => walkReference left
  | TextAstReference.countedInterval first _ => walkReference first

/-- The compiler entry point `convertAstToNavigationPath` (lines 443-450): the
returned `NavigationPath` record holds nothing but the flattened steps - in
particular no warning field exists in the result. -/
def convertAstToNavigationPath (ref : TextAstReference) : List NavigationStep2 :=
  walkReference ref

/- ### Batch extraction (three prototypes of extractModificationsFromProject) -/

/-- The article link inside a project item (`a.lien_article_externe`). -/
structure ArticleLink where
  href : Option String
  text : String
deriving DecidableEq

/-- One `li.assnatFPFprojetloiartexte` item of a project document: its text
content and its optional article link. -/
structure ProjectItem where
  text : String
  link : Option ArticleLink
deriving DecidableEq

/-- First occurrence of `LEGIARTI` followed by at least one digit, with the
digit run taken greedily - the regex `/LEGIARTI\d+/`.  On failure at one
position the scan advances one character, as a regex engine does. -/
def legiartiAux : List Char → Option String
  | [] => none
  | c :: rest =>
    if "LEGIARTI".toList.isPrefixOf (c :: rest) then
      let digits := ((c :: rest).drop 8).takeWhile Char.isDigit
      if digits.isEmpty then legiartiAux rest
      else some (String.mk ("LEGIARTI".toList ++ digits))
    else legiartiAux rest

/-- `extractArticleId` (article-navigator.ts lines 690-696): an absent href
yields the empty id, otherwise the first `LEGIARTI\d+` match or the empty id. -/
def extractArticleId (href : Option String) : String :=
  match href with
  | none => ""
  | some h =>
    match legiartiAux h.toList with
    | some m => m
    | none => ""

/-- Record produced by the `part_000` extractor: every item yields one record,
with the parse result optional. -/
structure ModificationBlock0 (α : Type) where
  id : String
  articleId : String
  rawText : String
  ast : Option α
deriving DecidableEq

/-- `extractModificationsFromProject` of src/unnamed/part_000 (lines 124-154):
every item is pushed, in order, with `ast` left absent when the parse fails.
The parser is the external tisseuse `modification` combinator, taken as a
parameter. -/
def extractModificationsFromProject0 {α : Type} (parse : String → Option α)
    (items : List ProjectItem) : List (ModificationBlock0 α) :=
  items.enum.map (fun p =>
    ⟨"mod-" ++ toString p.1,
      extractArticleId (p.2.link.bind ArticleLink.href),
      p.2.text,
      parse p.2.text⟩)

/-- Record produced by the `part_001` extractor: the parse result is mandatory. -/
structure ModificationBlock1 (α : Type) where
  id : String
  rawText : String
  ast : α
deriving DecidableEq

/-- `extractModificationsFromProject` of src/unnamed/part_001 (lines 111-137):
an item is pushed only when its parse succeeds (`if (parsed) { blocks.push }`),
so unparsed items are dropped from the result. -/
def extractModificationsFromProject1 {α : Type} (parse : String → Option α)
    (items : List ProjectItem) : List (ModificationBlock1 α) :=
  items.enum.filterMap (fun p =>
    (parse p.2.text).map (fun a => ⟨"mod-" ++ toString p.1, p.2.text, a⟩))

/-- Record produced by the DOM extractor (article-navigator.ts lines 657-688). -/
structure ModificationBlockD (α : Type) where
  id : String
  articleId : String
  articleTitle : String
  rawText : String
  ast : Option α
deriving DecidableEq

/-- `extractModificationsFromProject` of article-navigator.ts (lines 657-688):
an item is pushed only when it carries an article link; the parse result stays
optional. -/
def extractModificationsFromProjectD {α : Type} (parse : String → Option α)
    (items : List ProjectItem) : List (ModificationBlockD α) :=
  items.enum.filterMap (fun p =>
    p.2.link.map (fun l =>
      ⟨"mod-" ++ toString p.1, extractArticleId l.href, l.text, p.2.text,
        parse p.2.text⟩))

/- ### Position spans (modification parser sketch, src/unnamed/part_000) -/

/-- A character span over the source text (`{start, stop}`). -/
structure FragmentPosition where
  start : Nat
  stop : Nat
deriving DecidableEq

/-- Well-formedness of a span: `start ≤ stop`. -/
def wfPos (p : FragmentPosition) : Prop :=
  p.start ≤ p.stop

instance (p : FragmentPosition) : Decidable (wfPos p) := by
  unfold wfPos
  exact inferInstance

/-- `outer` covers `inner`: the outer span is never narrower. -/
def spanCovers (outer inner : FragmentPosition) : Prop :=
  outer.start ≤ inner.start ∧ inner.stop ≤ outer.stop

instance (outer inner : FragmentPosition) : Decidable (spanCovers outer inner) := by
  unfold spanCovers
  exact inferInstance

/-- Span computed for the `modification` node by the chain combinator of
src/unnamed/part_000 (lines 70-76): start of the target reference, stop of the
citation when present and of the action otherwise. -/
def modificationPosition (target action : FragmentPosition)
    (newContent : Option FragmentPosition) : FragmentPosition :=
  ⟨target.start,
    match newContent with
    | some c => c.stop
    | none => action.stop⟩

/-- Modelled from the spec: the span of a `ParentChild` node produced by the
external tisseuse reference grammar (spec sections 3 and 8: the composite span
covers the union of the parent's and child's spans). -/
def parentChildPosition (parent child : FragmentPosition) : FragmentPosition :=
  ⟨min parent.start child.start, max parent.stop child.stop⟩

/-- Modelled from the spec: the span of a `ReferenceAndAction` composite
produced by the external tisseuse composer (spec sections 3 and 8). -/
def referenceAndActionPosition (ref act : FragmentPosition) : FragmentPosition :=
  ⟨min ref.start act.start, max ref.stop act.stop⟩

/-- A predicate holding of the content of an optional value, if any. -/
def optionHolds {α : Type} (P : α → Prop) : Option α → Prop
  | none => True
  | some a => P a

instance {α : Type} (P : α → Prop) [DecidablePred P] (o : Option α) :
    Decidable (optionHolds P o) :=
  match o with
  | none => Decidable.isTrue trivial
  | some a => inferInstanceAs (Decidable (P a))

/-- Modelled from the spec: the ordinal-word normalization performed by the
external tisseuse reference grammar (spec section 4.3; `references.ts` is not
in src/).  Symbolic ordinal words map to integers at parse time, as a function
of the word alone: premier/première to 1, second/seconde to 2,
dernier/dernière to the sentinel -1.  Bare numerals are parsed by numeral
parsing, not by this table. -/
def normalizeOrdinal (w : String) : Option Int :=
  if w = "premier" ∨ w = "première" then some 1
  else if w = "second" ∨ w = "seconde" then some 2
  else if w = "dernier" ∨ w = "dernière" then some (-1)
  else none

/- ### Helper lemmas -/

/-- Characterization of `firstMatch`: it returns the index of the first
element satisfying the predicate. -/
theorem firstMatch_eq_some {α : Type} (p : α → Bool) :
    ∀ (l : List α) (j : Nat) (b : α), l.get? j = some b → p b = true →
      (∀ k c, k < j → l.get? k = some c → p c = false) → firstMatch p l = some j := by
  intro l
  induction l with
  | nil => intro j b h hp hmin; simp at h
  | cons a rest ih =>
    intro j b hget hp hmin
    cases j with
    | zero =>
      simp only [List.get?_cons_zero, Option.some.injEq] at hget
      subst hget
      simp [firstMatch, hp]
    | succ j2 =>
      have ha : p a = false := hmin 0 a (Nat.succ_pos j2) (by simp)
      have hrest := ih j2 b (by simpa using hget) hp
        (fun k c hk hg => hmin (k + 1) c (by omega) (by simpa using hg))
      simp [firstMatch, ha, hrest]

/-- Pointwise description of the part_000 extractor: the i-th record is
computed from the i-th item alone. -/
theorem extract0_get? {α : Type} (parse : String → Option α) (items : List ProjectItem)
    (i : Nat) :
    (extractModificationsFromProject0 parse items).get? i =
      (items.get? i).map (fun it =>
        ⟨"mod-" ++ toString i, extractArticleId (it.link.bind ArticleLink.href),
          it.text, parse it.text⟩) := by
  unfold extractModificationsFromProject0
  rw [List.get?_map, List.get?_enum]
  cases items.get? i <;> rfl

/-- A `last` ordinal selects the final paragraph of a nonempty body scope
(second navigator). -/
theorem findPortion2_last (doc : Doc) (idf : Option String) (h : doc ≠ []) :
    findPortion2 doc Scope.body ⟨StepType2.portion, idf, some Ordinal2.last, none⟩ =
      Except.ok (Scope.para (doc.length - 1)) := by
  have hlen : 1 ≤ doc.length := List.length_pos.mpr h
  unfold findPortion2 portionTargetIndex selectParagraph
  simp only [scopeBlocks]
  have h0 : (0 : Int) ≤ (doc.length : Int) - 1 := by omega
  rw [if_pos h0]
  have htn : ((doc.length : Int) - 1).toNat = doc.length - 1 := by omega
  rw [htn]
  have hlt : doc.length - 1 < doc.length := by omega
  rw [List.get?_eq_get hlt]

/-- An in-range numeric ordinal n selects the (n-1)-th paragraph, 0-based
(second navigator). -/
theorem findPortion2_num (doc : Doc) (idf : Option String) (n : Nat)
    (h1 : 1 ≤ n) (h2 : n ≤ doc.length) :
    findPortion2 doc Scope.body ⟨StepType2.portion, idf, some (Ordinal2.num (n : Int)), none⟩ =
      Except.ok (Scope.para (n - 1)) := by
  unfold findPortion2 portionTargetIndex selectParagraph
  simp only [scopeBlocks]
  have h0 : (0 : Int) ≤ (n : Int) - 1 := by omega
  rw [if_pos h0]
  have htn : ((n : Int) - 1).toNat = n - 1 := by omega
  rw [htn]
  have hlt : n - 1 < doc.length := by omega
  rw [List.get?_eq_get hlt]

/-- An out-of-range numeric ordinal raises an error (second navigator). -/
theorem findPortion2_num_oor (doc : Doc) (idf : Option String) (n : Nat)
    (h : doc.length < n) :
    ∃ e, findPortion2 doc Scope.body
      ⟨StepType2.portion, idf, some (Ordinal2.num (n : Int)), none⟩ = Except.error e := by
  refine ⟨"Portion at index " ++ toString ((n : Int) - 1) ++ " not found", ?_⟩
  unfold findPortion2 portionTargetIndex selectParagraph
  simp only [scopeBlocks]
  by_cases h0 : (0 : Int) ≤ (n : Int) - 1
  · rw [if_pos h0]
    have : doc.get? ((n : Int) - 1).toNat = none := by
      rw [List.get?_eq_none]
      omega
    rw [this]
  · rw [if_neg h0]

/-- A `dernier` paragraph portion selects the final paragraph of a nonempty
body scope (first navigator). -/
theorem findPortion1_dernier (doc : Doc) (cid dt : Option String) (idx : Option Int)
    (h : doc ≠ []) :
    findPortion1 doc Scope.body ⟨StepType1.portion, cid, some "dernier", dt, some "alinéa", idx⟩ =
      Except.ok (Scope.para (doc.length - 1)) := by
  have hlen : 1 ≤ doc.length := List.length_pos.mpr h
  unfold findPortion1 alineaBranch
  simp only [scopeBlocks]
  have hlt : doc.length - 1 < doc.length := by omega
  rw [List.get?_eq_get hlt]
  simp

/-- An out-of-range nonnegative paragraph index yields the empty selection,
not an error (first navigator). -/
theorem findPortion1_alinea_oor (doc : Doc) (cid dt : Option String) (i : Nat)
    (h : doc.length ≤ i) :
    findPortion1 doc Scope.body ⟨StepType1.portion, cid, none, dt, some "alinéa", some (i : Int)⟩ =
      Except.ok Scope.empty := by
  unfold findPortion1 alineaBranch
  simp only [scopeBlocks]
  have hne : ¬ ((some (i : Int) : Option Int) = some (-1)) := by
    simp only [Option.some.injEq]
    omega
  have h0 : (0 : Int) ≤ (i : Int) := by omega
  have hnone : doc[i]? = none := by
    rw [List.getElem?_eq_none_iff]
    exact h
  simp [hne, h0, hnone]

/-- The second navigator's division-not-found message is a function of the
step alone. -/
theorem findDivision2_error_msg (doc : Doc) (scope : Scope) (step : NavigationStep2)
    (e : String) (h : findDivision2 doc scope step = Except.error e) :
    e = "Division " ++ identifierString step.identifier ++ " not found" := by
  simp only [findDivision2] at h
  cases hm : firstMatch (divMatches2 step.identifier) (scopeBlocks doc scope) with
  | some j => rw [hm] at h; simp at h
  | none => rw [hm] at h; simp only [Except.error.injEq] at h; exact h.symm

/-- The first navigator's division-not-found message is a function of the
step alone. -/
theorem findDivision1_error_msg (doc : Doc) (scope : Scope) (step : NavigationStep)
    (e : String) (h : findDivision1 doc scope step = Except.error e) :
    e = "Division not found: " ++ stepToString1 step := by
  simp only [findDivision1] at h
  cases hb : byNumIdx (scopeBlocks doc scope) step.num with
  | some j => rw [hb] at h; simp at h
  | none =>
    rw [hb] at h
    simp only [divisionFallback] at h
    split at h
    · split at h
      · split at h <;> simp_all
      · simp only [Except.error.injEq] at h
        exact h.symm
    · simp only [Except.error.injEq] at h
      exact h.symm

/-- Every error of the second navigator's `findPortion` is either the
invalid-ordinal message or the not-found message naming the resolved index. -/
theorem findPortion2_error_msg (doc : Doc) (scope : Scope) (step : NavigationStep2)
    (e : String) (h : findPortion2 doc scope step = Except.error e) :
    e = "Invalid portion ordinal" ∨
      ∃ t : Int, e = "Portion at index " ++ toString t ++ " not found" := by
  simp only [findPortion2] at h
  cases hti : portionTargetIndex (scopeBlocks doc scope).length step with
  | error e2 =>
    rw [hti] at h
    simp only [Except.error.injEq] at h
    left
    simp only [portionTargetIndex] at hti
    cases hr : step.relative with
    | some r => rw [hr] at hti; simp at hti
    | none =>
      rw [hr] at hti
      cases ho : step.ordinal with
      | none =>
        rw [ho] at hti
        simp only [Except.error.injEq] at hti
        rw [← h, ← hti]
      | some o => rw [ho] at hti; cases o <;> simp_all
  | ok t =>
    rw [hti] at h
    right
    refine ⟨t, ?_⟩
    simp only [selectParagraph] at h
    split at h
    · split at h <;> simp_all
    · simp only [Except.error.injEq] at h
      exact h.symm

/-- A division-step failure aborts the first navigator's walk with the very
same error: no fallback to a coarser scope, no substituted fragment. -/
theorem navigatePath1Go_division_error (doc : Doc) (scope : Scope) (step : NavigationStep)
    (rest : List NavigationStep) (e : String) (htype : step.type = StepType1.division)
    (herr : findDivision1 doc scope step = Except.error e) :
    navigatePath1Go doc (step :: rest) scope = Except.error e := by
  unfold navigatePath1Go
  rw [htype, herr]

/- ### Claim C1 -/

/-- The four-block document of the spec's scenario: the Division marker `II.-`
is the third block's text prefix and one paragraph block follows it. -/
def c1doc : Doc :=
  [⟨"I.- Première section"⟩, ⟨"Texte de la première section."⟩,
   ⟨"II.- Deuxième section"⟩, ⟨"Dernier alinéa."⟩]

/-- The compiled path of the scenario: a Division step for marker `II`
followed by a paragraph-unit Portion step with ordinal sentinel -1. -/
def c1path : List NavigationStep :=
  [⟨StepType1.division, none, some "II", some "item", none, some 2⟩,
   ⟨StepType1.portion, none, some "dernier", none, some "alinéa", some (-1)⟩]

/-- C1, code bug.  The claim says that after the Division step the scope is
restricted to the II division's span, so the following `-1` paragraph Portion
step selects that span's last block ("Dernier alinéa.").  In the code,
`findDivision` returns the matched `II.-` paragraph element itself as the new
scope, and `findPortion` then searches for `<p>` descendants inside a `<p>`,
of which there are none: the last-paragraph lookup yields the empty selection
and `navigatePath` returns the empty string - no block of the document at all,
in particular not the division's last block. -/
theorem c1_division_scope_bug :
    navigatePath1 c1doc c1path = Except.ok "" ∧
    (∀ b ∈ c1doc, b.text ≠ "") ∧
    navigatePath1 c1doc c1path ≠ Except.ok "Dernier alinéa." := by decide

/- ### Claim C2 -/

/-- A document whose single block holds three sentences. -/
def c2doc : Doc := [⟨"Premier alinéa. Première phrase. Seconde phrase."⟩]

/-- A sentence-unit Portion step with the in-range 1-based ordinal 2. -/
def c2step : NavigationStep :=
  ⟨StepType1.portion, none, some "seconde", none, some "phrase", some 2⟩

/-- C2, code bug.  The claim says a sentence-unit Portion step with an
in-range ordinal returns the character span of the selected sentence, never
the whole block.  The code validates the ordinal against `splitSentences`
(3 sentences here, ordinal 2 in range) but then returns the untouched scope -
the whole containing block, with no span information at all (the source
comments this as a placeholder: "Pour l'instant, retourner le scope entier"). -/
theorem c2_sentence_returns_whole_scope :
    (splitSentences (textAt c2doc 0)).length = 3 ∧
    findPortion1 c2doc (Scope.para 0) c2step = Except.ok (Scope.para 0) := by decide

/- ### Claim C3 -/

/-- C3 counterexample.  The claim says any out-of-range ordinal yields a
navigation failure rather than a result, and that sentinel -1 selects the last
child.  In the first navigator a paragraph Portion step with index 5 on a
two-block document returns the empty selection as an ordinary result (no
failure); and in the second navigator a numeric ordinal -1 (the sentinel) is
converted to target index -2 and fails instead of selecting the last block. -/
theorem c3_out_of_range_not_a_failure :
    findPortion1 [⟨"Premier."⟩, ⟨"Deuxième."⟩] Scope.body
        ⟨StepType1.portion, none, none, none, some "alinéa", some 5⟩ =
      Except.ok Scope.empty ∧
    findPortion2 [⟨"Premier."⟩, ⟨"Deuxième."⟩] Scope.body
        ⟨StepType2.portion, none, some (Ordinal2.num (-1)), none⟩ =
      Except.error "Portion at index -2 not found" := by decide

/-- C3 amended.  In the second navigator the sentinel takes the symbolic form
`last` and selects the scope's last child; a positive numeric ordinal n selects
the (n-1)-th child 0-based; an out-of-range numeric ordinal raises a navigation
error.  In the first navigator's paragraph branch, `dernier` (or index -1)
selects the last child, while a nonnegative index i selects the i-th child
directly and an out-of-range index yields the empty selection rather than a
failure. -/
theorem c3_portion_ordinal_semantics :
    (∀ (doc : Doc) (idf : Option String), doc ≠ [] →
      findPortion2 doc Scope.body ⟨StepType2.portion, idf, some Ordinal2.last, none⟩ =
        Except.ok (Scope.para (doc.length - 1))) ∧
    (∀ (doc : Doc) (idf : Option String) (n : Nat), 1 ≤ n → n ≤ doc.length →
      findPortion2 doc Scope.body
          ⟨StepType2.portion, idf, some (Ordinal2.num (n : Int)), none⟩ =
        Except.ok (Scope.para (n - 1))) ∧
    (∀ (doc : Doc) (idf : Option String) (n : Nat), doc.length < n →
      ∃ e, findPortion2 doc Scope.body
          ⟨StepType2.portion, idf, some (Ordinal2.num (n : Int)), none⟩ = Except.error e) ∧
    (∀ (doc : Doc) (cid dt : Option String) (idx : Option Int), doc ≠ [] →
      findPortion1 doc Scope.body
          ⟨StepType1.portion, cid, some "dernier", dt, some "alinéa", idx⟩ =
        Except.ok (Scope.para (doc.length - 1))) ∧
    (∀ (doc : Doc) (cid dt : Option String) (i : Nat), doc.length ≤ i →
      findPortion1 doc Scope.body
          ⟨StepType1.portion, cid, none, dt, some "alinéa", some (i : Int)⟩ =
        Except.ok Scope.empty) :=
  ⟨findPortion2_last, findPortion2_num, findPortion2_num_oor,
    findPortion1_dernier, findPortion1_alinea_oor⟩

/-- C3 witness: ordinal 2 on a three-block document selects block index 1. -/
theorem c3_portion_ordinal_semantics_witness :
    findPortion2 [⟨"Un."⟩, ⟨"Deux."⟩, ⟨"Trois."⟩] Scope.body
        ⟨StepType2.portion, none, some (Ordinal2.num 2), none⟩ =
      Except.ok (Scope.para 1) :=
  c3_portion_ordinal_semantics.2.1 [⟨"Un."⟩, ⟨"Deux."⟩, ⟨"Trois."⟩] none 2
    (by decide) (by decide)

/- ### Claim C4 -/

/-- A parser that fails exactly on the text "bad", standing in for the
external tisseuse `modification` parser on a grammatically malformed block. -/
def parseStub : String → Option Unit := fun s => if s = "bad" then none else some ()

/-- C4 counterexample.  The claim says batch extraction returns exactly one
result per input block, with an explicit unparsed-block record on failure.
The part_001 extractor pushes a block only when its parse succeeds, so two
input items where the second fails to parse produce a single record: the
failed block is silently dropped, not recorded. -/
theorem c4_failed_block_dropped :
    (extractModificationsFromProject1 parseStub [⟨"ok", none⟩, ⟨"bad", none⟩]).length = 1 ∧
    ([⟨"ok", none⟩, ⟨"bad", none⟩] : List ProjectItem).length = 2 := by decide

/-- C4 amended.  One prototype, the part_000 extractor, does return exactly
one record per input item, in the original order, each computed from that item
alone (so one item's parse failure never alters another item's record); a
failed parse is recorded only as an absent `ast`, not as a typed failure
reason.  The part_001 extractor instead drops unparsed items, and the DOM
extractor drops items without an article link. -/
theorem c4_extract0_one_record_per_item {α : Type} (parse : String → Option α)
    (items : List ProjectItem) (i : Nat) :
    (extractModificationsFromProject0 parse items).length = items.length ∧
    (extractModificationsFromProject0 parse items).get? i =
      (items.get? i).map (fun it =>
        ⟨"mod-" ++ toString i, extractArticleId (it.link.bind ArticleLink.href),
          it.text, parse it.text⟩) := by
  constructor
  · unfold extractModificationsFromProject0
    rw [List.length_map, List.enum_length]
  · exact extract0_get? parse items i

/- ### Claim C5 -/

/-- C5, confirmed.  For a Division step whose nonempty marker has an accepted
surface form prefixing some block of the body scope (after trimming, as the
code matches), both navigators' `findDivision` succeed and return exactly the
first such block in document order - never a later matching block.  The first
matching index j is characterized by the matching hypothesis on j and the
mismatch hypothesis on all k < j. -/
theorem c5_first_division_match_wins (doc : Doc) (m : String) (j : Nat) (b : Block)
    (hm : m ≠ "") (hget : doc.get? j = some b) :
    ((divMatches1 m b = true ∧
        (∀ k c, k < j → doc.get? k = some c → divMatches1 m c = false)) →
      ∀ (cid dt pt : Option String) (idx : Option Int),
        findDivision1 doc Scope.body ⟨StepType1.division, cid, some m, dt, pt, idx⟩ =
          Except.ok (Scope.para j)) ∧
    ((divMatches2 (some m) b = true ∧
        (∀ k c, k < j → doc.get? k = some c → divMatches2 (some m) c = false)) →
      ∀ (ord : Option Ordinal2) (rel : Option Int),
        findDivision2 doc Scope.body ⟨StepType2.division, some m, ord, rel⟩ =
          Except.ok (Scope.para j)) := by
  constructor
  · rintro ⟨hmatch, hmin⟩ cid dt pt idx
    simp only [findDivision1, byNumIdx, scopeBlocks]
    rw [if_neg hm]
    rw [firstMatch_eq_some (divMatches1 m) doc j b hget hmatch hmin]
  · rintro ⟨hmatch, hmin⟩ ord rel
    simp only [findDivision2, scopeBlocks]
    rw [firstMatch_eq_some (divMatches2 (some m)) doc j b hget hmatch hmin]

/-- A document in which two blocks carry the marker `II.-`. -/
def c5doc : Doc := [⟨"II.- Premier bloc"⟩, ⟨"II.- Second bloc"⟩]

/-- C5 witness: with two matching blocks, both navigators return the first. -/
theorem c5_first_division_match_wins_witness :
    findDivision1 c5doc Scope.body
        ⟨StepType1.division, none, some "II", none, none, none⟩ =
      Except.ok (Scope.para 0) ∧
    findDivision2 c5doc Scope.body ⟨StepType2.division, some "II", none, none⟩ =
      Except.ok (Scope.para 0) := by
  constructor
  · exact (c5_first_division_match_wins c5doc "II" 0 ⟨"II.- Premier bloc"⟩ (by decide)
      (by decide)).1 ⟨by decide, fun k c hk _ => absurd hk (Nat.not_lt_zero k)⟩
      none none none none
  · exact (c5_first_division_match_wins c5doc "II" 0 ⟨"II.- Premier bloc"⟩ (by decide)
      (by decide)).2 ⟨by decide, fun k c hk _ => absurd hk (Nat.not_lt_zero k)⟩
      none none

/- ### Claim C6 -/

/-- A Division reference for marker II. -/
def astDivII : TextAstReference :=
  TextAstReference.division DivisionType2.sectionDiv (some "II") none

/-- A Division reference for marker III. -/
def astDivIII : TextAstReference :=
  TextAstReference.division DivisionType2.sectionDiv (some "III") none

/-- C6 counterexample.  The claim says compiling a top-level Enumeration
produces the first member's path and that the result carries an explicit
compiler warning marking the resolution as partial.  Compiling the enumeration
"II et III" produces output identical to compiling the bare Division II alone:
the compiled result (a bare step list - the source's `NavigationPath` record
holds nothing else) contains no warning distinguishing the partial resolution
from a complete one. -/
theorem c6_no_warning_attached :
    convertAstToNavigationPath (TextAstReference.enumeration astDivII [astDivIII]) =
      convertAstToNavigationPath astDivII ∧
    convertAstToNavigationPath (TextAstReference.enumeration astDivII [astDivIII]) =
      [⟨StepType2.division, some "II", none, none⟩] :=
  ⟨rfl, rfl⟩

/-- C6 amended.  Compiling an Enumeration or Interval at any level produces
exactly the first member's navigation path - never a hard failure - but
silently: the output equals the compilation of the first member alone, so no
warning marks the resolution as partial. -/
theorem c6_first_member_only_no_warning :
    (∀ (first : TextAstReference) (rest : List TextAstReference),
      convertAstToNavigationPath (TextAstReference.enumeration first rest) =
        convertAstToNavigationPath first) ∧
    (∀ (left right : TextAstReference),
      convertAstToNavigationPath (TextAstReference.boundedInterval left right) =
        convertAstToNavigationPath left) ∧
    (∀ (first : TextAstReference) (count : Nat),
      convertAstToNavigationPath (TextAstReference.countedInterval first count) =
        convertAstToNavigationPath first) :=
  ⟨fun _ _ => rfl, fun _ _ => rfl, fun _ _ => rfl⟩

/- ### Claim C7 -/

/-- C7 counterexample.  The claim says every step failure reports both the
failing step and the active scope.  Two different documents (hence different
active scopes) produce the very same division-not-found error for the same
step, so the error cannot be reporting which scope was active. -/
theorem c7_same_error_for_different_scopes :
    findDivision2 [⟨"Alpha."⟩] Scope.body ⟨StepType2.division, some "V", none, none⟩ =
      Except.error "Division V not found" ∧
    findDivision2 [⟨"Beta."⟩] Scope.body ⟨StepType2.division, some "V", none, none⟩ =
      Except.error "Division V not found" ∧
    ([⟨"Alpha."⟩] : Doc) ≠ [⟨"Beta."⟩] := by decide

/-- C7 amended.  Step failures are explicit errors naming data of the failing
step but never the scope: the second navigator's division failure message is a
function of the step's identifier alone, the first navigator's of the step
alone, and the second navigator's portion failures carry either the
invalid-ordinal message or the resolved target index.  A failing division step
aborts the first navigator's walk with the very same error - navigation never
falls back to a coarser scope or substitutes another fragment. -/
theorem c7_errors_name_step_not_scope :
    (∀ (doc : Doc) (scope : Scope) (step : NavigationStep2) (e : String),
      findDivision2 doc scope step = Except.error e →
      e = "Division " ++ identifierString step.identifier ++ " not found") ∧
    (∀ (doc : Doc) (scope : Scope) (step : NavigationStep) (e : String),
      findDivision1 doc scope step = Except.error e →
      e = "Division not found: " ++ stepToString1 step) ∧
    (∀ (doc : Doc) (scope : Scope) (step : NavigationStep2) (e : String),
      findPortion2 doc scope step = Except.error e →
      e = "Invalid portion ordinal" ∨
        ∃ t : Int, e = "Portion at index " ++ toString t ++ " not found") ∧
    (∀ (doc : Doc) (scope : Scope) (step : NavigationStep)
        (rest : List NavigationStep) (e : String), step.type = StepType1.division →
      findDivision1 doc scope step = Except.error e →
      navigatePath1Go doc (step :: rest) scope = Except.error e) :=
  ⟨findDivision2_error_msg, findDivision1_error_msg, findPortion2_error_msg,
    navigatePath1Go_division_error⟩

/-- A division step whose marker matches nothing in an empty document. -/
def c7step : NavigationStep := ⟨StepType1.division, none, some "Z", none, none, none⟩

/-- C7 witness: the failing division step aborts the walk with its own error. -/
theorem c7_errors_name_step_not_scope_witness :
    navigatePath1Go [] [c7step] Scope.body =
      Except.error ("Division not found: " ++ stepToString1 c7step) :=
  c7_errors_name_step_not_scope.2.2.2 [] Scope.body c7step []
    ("Division not found: " ++ stepToString1 c7step) rfl (by decide)

/- ### Claim C8 -/

/-- C8, confirmed.  Ordinal normalization is a function of the word alone
(spec-modelled, since the tisseuse grammar is external): dernier/dernière give
the sentinel -1, second/seconde give 2, premier/première give 1.  The compiled
steps carry the AST's ordinal fields verbatim (no arithmetic in the compiler),
and the 1-based-to-0-based conversion happens only inside the navigator, whose
numeric ordinal n selects the (n-1)-th paragraph. -/
theorem c8_ordinal_normalization :
    normalizeOrdinal "dernier" = some (-1) ∧
    normalizeOrdinal "dernière" = some (-1) ∧
    normalizeOrdinal "second" = some 2 ∧
    normalizeOrdinal "seconde" = some 2 ∧
    normalizeOrdinal "premier" = some 1 ∧
    normalizeOrdinal "première" = some 1 ∧
    (∀ (pt : PortionType2) (num : Option String) (rel : Option Int),
      walkReference (TextAstReference.portion pt num rel) =
        [⟨StepType2.portion, num, none, rel⟩]) ∧
    (∀ (dt : DivisionType2) (num : Option String) (rel : Option Int),
      walkReference (TextAstReference.division dt num rel) =
        [⟨StepType2.division, num, none, rel⟩]) ∧
    (∀ (doc : Doc) (idf : Option String) (n : Nat), 1 ≤ n → n ≤ doc.length →
      findPortion2 doc Scope.body
          ⟨StepType2.portion, idf, some (Ordinal2.num (n : Int)), none⟩ =
        Except.ok (Scope.para (n - 1))) :=
  ⟨by decide, by decide, by decide, by decide, by decide, by decide,
    fun _ _ _ => rfl, fun _ _ _ => rfl, findPortion2_num⟩

/-- C8 witness: the 1-based ordinal 2 selects the 0-based paragraph 1. -/
theorem c8_ordinal_normalization_witness :
    findPortion2 [⟨"Premier bloc."⟩, ⟨"Second bloc."⟩] Scope.body
        ⟨StepType2.portion, none, some (Ordinal2.num 2), none⟩ =
      Except.ok (Scope.para 1) :=
  c8_ordinal_normalization.2.2.2.2.2.2.2.2 [⟨"Premier bloc."⟩, ⟨"Second bloc."⟩] none 2
    (by decide) (by decide)

/- ### Claim C9 -/

/-- C9, confirmed.  Under the sequential-consumption discipline of the chain
combinator (each child span is well-formed and later children start after
earlier ones stop - spec sections 4.1, 4.2 and 8; the leaf parsers are
external), the `modification` node's span computed by part_000 is well-formed
and covers every descendant span, and likewise the spec-modelled ParentChild
and ReferenceAndAction composite spans cover both children. -/
theorem c9_position_spans (target action : FragmentPosition)
    (newContent : Option FragmentPosition)
    (ht : wfPos target) (ha : wfPos action)
    (hc : optionHolds (fun c => wfPos c ∧ action.stop ≤ c.start) newContent)
    (hseq : target.stop ≤ action.start) :
    wfPos (modificationPosition target action newContent) ∧
    spanCovers (modificationPosition target action newContent) target ∧
    spanCovers (modificationPosition target action newContent) action ∧
    optionHolds (fun c => spanCovers (modificationPosition target action newContent) c)
      newContent ∧
    (∀ p c : FragmentPosition, wfPos p → wfPos c →
      wfPos (parentChildPosition p c) ∧ spanCovers (parentChildPosition p c) p ∧
        spanCovers (parentChildPosition p c) c) ∧
    (∀ r a : FragmentPosition, wfPos r → wfPos a →
      wfPos (referenceAndActionPosition r a) ∧
        spanCovers (referenceAndActionPosition r a) r ∧
        spanCovers (referenceAndActionPosition r a) a) := by
  cases newContent with
  | none =>
    simp only [optionHolds] at hc ⊢
    simp only [modificationPosition, parentChildPosition, referenceAndActionPosition,
      wfPos, spanCovers] at *
    refine ⟨by omega, by omega, by omega, trivial, ?_, ?_⟩ <;>
      exact fun p c hp hch => ⟨by omega, ⟨by omega, by omega⟩, by omega, by omega⟩
  | some cit =>
    simp only [optionHolds] at hc ⊢
    simp only [modificationPosition, parentChildPosition, referenceAndActionPosition,
      wfPos, spanCovers] at *
    obtain ⟨hcw, hcs⟩ := hc
    refine ⟨by omega, by omega, by omega, by omega, ?_, ?_⟩ <;>
      exact fun p c hp hch => ⟨by omega, ⟨by omega, by omega⟩, by omega, by omega⟩

/-- C9 witness: concrete sequential spans 0-5, 6-10, 11-20. -/
theorem c9_position_spans_witness :
    wfPos (modificationPosition ⟨0, 5⟩ ⟨6, 10⟩ (some ⟨11, 20⟩)) ∧
    spanCovers (modificationPosition ⟨0, 5⟩ ⟨6, 10⟩ (some ⟨11, 20⟩)) ⟨11, 20⟩ :=
  ⟨(c9_position_spans ⟨0, 5⟩ ⟨6, 10⟩ (some ⟨11, 20⟩) (by decide) (by decide)
      ⟨by decide, by decide⟩ (by decide)).1,
   (c9_position_spans ⟨0, 5⟩ ⟨6, 10⟩ (some ⟨11, 20⟩) (by decide) (by decide)
      ⟨by decide, by decide⟩ (by decide)).2.2.2.1⟩

/- ### Claim C10 -/

/-- C10 counterexample.  The claim says both `getDivisionPatterns` return the
same set of patterns for every marker.  For marker II the first returns the
parenthesis-suffixed form `II)` and the second does not, so the sets differ. -/
theorem c10_pattern_sets_differ :
    ("II)" ∈ getDivisionPatterns1 "II") ∧ ("II)" ∉ getDivisionPatterns2 (some "II")) := by
  decide

/-- C10 amended.  For every nonempty marker, the first navigator's pattern
list is exactly the second navigator's plus one extra final member, the
parenthesis-suffixed form; the second additionally maps an absent or empty
identifier to no patterns. -/
theorem c10_patterns_differ_by_paren_form (m : String) (h : m ≠ "") :
    getDivisionPatterns1 m = getDivisionPatterns2 (some m) ++ [m ++ ")"] := by
  simp only [getDivisionPatterns1, getDivisionPatterns2]
  rw [if_neg h]
  rfl

/-- C10 witness at marker II. -/
theorem c10_patterns_differ_by_paren_form_witness :
    getDivisionPatterns1 "II" = getDivisionPatterns2 (some "II") ++ ["II" ++ ")"] :=
  c10_patterns_differ_by_paren_form "II" (by decide)
